import Mathlib

/-!
# Verification of the sensor-telemetry service (`src/app.py`)

A shallow embedding of the Flask + SQLite sensor reading service.  The
persistent `readings` table is modelled as a `List Reading`; each HTTP
handler becomes a pure Lean function from the table (plus the request
parameters) to its response, mirroring the Python code line by line:

* SQL `TEXT`/`INTEGER` columns that may hold `NULL` are `Option` types.
* Query-string parameters arrive as strings in Python; the `start`/`end`
  epoch parameters are bound to `date_created >= ?` / `<= ?` where SQLite's
  numeric affinity converts the bound text to an integer before comparing,
  so they are modelled here as `Option Int`.
* SQLite `REAL` results (averages, percentiles) are modelled as `ℚ`; every
  numeric value appearing in the checked fixtures is exactly representable.
-/

namespace SensorApi

/-- One row of the `readings` table, created by
`CREATE TABLE readings (device_uuid TEXT, type TEXT, value INTEGER, date_created INTEGER)`.
`type` and `value` may be SQL `NULL` (the cerberus validator does not require
either field), hence the `Option` types. -/
structure Reading where
  device_uuid : String
  type : Option String
  value : Option Int
  date_created : Int
deriving DecidableEq, Repr

/-- The JSON body of a `POST /devices/<id>/readings/` request, restricted to
the fields the handler and its validator inspect: `type`, `value` and
`date_created`.  `none` means the field is absent from the JSON object. -/
structure PostData where
  type : Option String
  value : Option Int
  date_created : Option Int
deriving DecidableEq, Repr

/-- The cerberus validation in `request_device_readings` (POST branch):
`write_schema = {"type": {'type': 'string'}, 'value': {'type': 'integer', 'min': 0, 'max': 100}}`.
cerberus defaults: schema fields are *not* required, so a missing `type` or
`value` passes; any string (including `""`) satisfies `{'type': 'string'}`;
and unknown document keys are rejected (`allow_unknown` defaults to `False`),
so a body containing `date_created` fails validation. -/
def validatePost (post_data : PostData) : Bool :=
  (match post_data.type with
   | none => true
   | some _ => true)
  && (match post_data.value with
      | none => true
      | some v => decide (0 ≤ v) && decide (v ≤ 100))
  && (match post_data.date_created with
      | none => true
      | some _ => false)

/-- The POST branch of `request_device_readings`: validate, then
`insert into readings (device_uuid,type,value,date_created) VALUES (?,?,?,?)`
with `date_created = post_data.get('date_created', int(time.time()))`; `now`
is the server-observed write time `int(time.time())`.  Returns the Flask
response pair (`('success', 201)` or `('invalid input', 400)`) together with
the table after the request. -/
def record (db : List Reading) (device_uuid : String) (post_data : PostData)
    (now : Int) : (String × Nat) × List Reading :=
  if validatePost post_data then
    (("success", 201),
      db ++ [{ device_uuid := device_uuid
               type := post_data.type
               value := post_data.value
               date_created := post_data.date_created.getD now }])
  else
    (("invalid input", 400), db)

/-- `request.args.get(k) or None`: a missing parameter is `None` and an empty
string is falsy in Python, so it also collapses to `None`. -/
def normArg (s : Option String) : Option String :=
  match s with
  | none => none
  | some t => if t = "" then none else some t

/-- The WHERE clause built by the GET branch's `query_builder`:
`device_uuid=?` plus, for each present filter, `and type = ?`,
`and date_created >= ?`, `and date_created <= ?` — evaluated on one row.
`ty` is the already-normalised sensor type (`none` = no type predicate). -/
def matchesFilter (device_uuid : String) (ty : Option String)
    (start end_ : Option Int) (r : Reading) : Bool :=
  r.device_uuid == device_uuid
  && (match ty with
      | none => true
      | some t => r.type == some t)
  && (match start with
      | none => true
      | some s => decide (s ≤ r.date_created))
  && (match end_ with
      | none => true
      | some e => decide (r.date_created ≤ e))

/-- The GET branch of `request_device_readings`:
`select * from readings where device_uuid=?` with the conjuncts produced by
`query_builder` from `request.args.get('type') or None` and the optional
`start`/`end` epochs.  Returns the matching rows in table order. -/
def listReadings (db : List Reading) (device_uuid : String)
    (typeArg : Option String) (start end_ : Option Int) : List Reading :=
  db.filter (matchesFilter device_uuid (normArg typeArg) start end_)

/-- C1: a valid reading (integer value in `[0,100]`) accepted by `record` is
returned by `listReadings` under any matching filter: same device, its sensor
type, and a start/end range containing its `created_at` (which a successful
POST always sets to the server-observed write time `now`). -/
theorem record_then_listReadings (db : List Reading) (dev ty : String)
    (v now s e : Int) (h0 : 0 ≤ v) (h1 : v ≤ 100) (hs : s ≤ now) (he : now ≤ e) :
    (record db dev ⟨some ty, some v, none⟩ now).1 = ("success", 201) ∧
    (⟨dev, some ty, some v, now⟩ : Reading) ∈
      listReadings (record db dev ⟨some ty, some v, none⟩ now).2 dev (some ty)
        (some s) (some e) := by
  have hval : validatePost ⟨some ty, some v, none⟩ = true := by
    simp [validatePost, h0, h1]
  refine ⟨by simp [record, hval], ?_⟩
  simp only [listReadings, List.mem_filter]
  refine ⟨by simp [record, hval], ?_⟩
  by_cases hty : ty = "" <;>
    simp [matchesFilter, normArg, hty, hs, he]

/-- C1 witness. -/
theorem record_then_listReadings_witness :
    ((0 : Int) ≤ 42 ∧ (42 : Int) ≤ 100 ∧ (10 : Int) ≤ 17 ∧ (17 : Int) ≤ 99) ∧
    ((record [] "dev0" ⟨some "temperature", some 42, none⟩ 17).1 = ("success", 201) ∧
      (⟨"dev0", some "temperature", some 42, 17⟩ : Reading) ∈
        listReadings (record [] "dev0" ⟨some "temperature", some 42, none⟩ 17).2
          "dev0" (some "temperature") (some 10) (some 99)) :=
  ⟨by norm_num,
    record_then_listReadings [] "dev0" "temperature" 42 17 10 99
      (by norm_num) (by norm_num) (by norm_num) (by norm_num)⟩

/-- C2: a POST whose `value` is an integer outside `[0,100]` fails cerberus
validation, the handler answers `('invalid input', 400)` before the insert,
and the table — in particular the row count for that device — is unchanged. -/
theorem record_out_of_range (db : List Reading) (dev : String)
    (post_data : PostData) (v now : Int) (hv : post_data.value = some v)
    (hout : v < 0 ∨ 100 < v) :
    (record db dev post_data now).1 = ("invalid input", 400) ∧
    (record db dev post_data now).2 = db ∧
    ((record db dev post_data now).2.filter
        (fun r => r.device_uuid == dev)).length
      = (db.filter (fun r => r.device_uuid == dev)).length := by
  have hval : validatePost post_data = false := by
    rcases hout with h | h
    · have hn : ¬ (0 ≤ v) := by omega
      simp [validatePost, hv, hn]
    · have hn : ¬ (v ≤ 100) := by omega
      simp [validatePost, hv, hn]
  simp [record, hval]

/-- C2 witness. -/
theorem record_out_of_range_witness :
    ((⟨some "temperature", some 130, none⟩ : PostData).value = some 130 ∧
      ((130 : Int) < 0 ∨ (100 : Int) < 130)) ∧
    ((record [] "dev0" ⟨some "temperature", some 130, none⟩ 5).1
        = ("invalid input", 400) ∧
      (record [] "dev0" ⟨some "temperature", some 130, none⟩ 5).2 = [] ∧
      ((record [] "dev0" ⟨some "temperature", some 130, none⟩ 5).2.filter
          (fun r => r.device_uuid == "dev0")).length
        = (([] : List Reading).filter (fun r => r.device_uuid == "dev0")).length) :=
  ⟨⟨rfl, by norm_num⟩,
    record_out_of_range [] "dev0" ⟨some "temperature", some 130, none⟩ 130 5
      rfl (by norm_num)⟩

/-- C5 counterexample: the claim demands that a missing or empty `type` be
rejected and that an explicit `date_created` be accepted and stored.  The
code does the opposite on both points: `type` is not a required field and
`""` is a valid cerberus string, while a body carrying `date_created` hits
cerberus's unknown-field rule (`allow_unknown = False`) and is rejected. -/
theorem record_contract_counterexample :
    (record [] "dev" ⟨some "", some 50, none⟩ 5).1 = ("success", 201) ∧
    (record [] "dev" ⟨none, some 50, none⟩ 5).1 = ("success", 201) ∧
    (record [] "dev" ⟨some "t", some 50, some 7⟩ 5).1 = ("invalid input", 400) := by
  decide

/-- C5 amended: `record` accepts any optional `type` (missing and `""`
included); `value`, when present, must be an integer in `[0,100]`; a body
that carries `date_created` is rejected as an unknown field with a 400 and
leaves the table unchanged; a successful write therefore always stores the
server-observed time `now` as `date_created`. -/
theorem record_contract (db : List Reading) (dev : String) (ty : Option String)
    (v dc now : Int) (h0 : 0 ≤ v) (h1 : v ≤ 100) :
    record db dev ⟨ty, some v, none⟩ now =
      (("success", 201), db ++ [⟨dev, ty, some v, now⟩]) ∧
    record db dev ⟨ty, some v, some dc⟩ now = (("invalid input", 400), db) := by
  constructor
  · have hval : validatePost ⟨ty, some v, none⟩ = true := by
      cases ty <;> simp [validatePost, h0, h1]
    simp [record, hval]
  · have hval : validatePost ⟨ty, some v, some dc⟩ = false := by
      cases ty <;> simp [validatePost]
    simp [record, hval]

/-- C5 witness. -/
theorem record_contract_witness :
    ((0 : Int) ≤ 50 ∧ (50 : Int) ≤ 100) ∧
    (record [] "dev" ⟨some "", some 50, none⟩ 5 =
        (("success", 201), [⟨"dev", some "", some 50, 5⟩]) ∧
      record [] "dev" ⟨some "", some 50, some 7⟩ 5 = (("invalid input", 400), [])) :=
  ⟨by norm_num,
    record_contract [] "dev" (some "") 50 7 5 (by norm_num) (by norm_num)⟩

/-- C4: membership in the GET result is exactly: stored, same device, the
(normalised) sensor-type predicate, and `start ≤ date_created ≤ end` with
each bound inclusive when present. -/
theorem listReadings_range (db : List Reading) (dev : String)
    (typeArg : Option String) (start end_ : Option Int) (r : Reading) :
    r ∈ listReadings db dev typeArg start end_ ↔
      r ∈ db ∧ r.device_uuid = dev ∧
      (∀ t, normArg typeArg = some t → r.type = some t) ∧
      (∀ s, start = some s → s ≤ r.date_created) ∧
      (∀ e, end_ = some e → r.date_created ≤ e) := by
  cases h : normArg typeArg <;> cases start <;> cases end_ <;>
    simp [listReadings, List.mem_filter, matchesFilter, h, and_assoc]

/-- C10 (implicit): an empty-string `type` query parameter is falsy in
Python (`request.args.get('type') or None`), so it behaves exactly like an
absent sensor-type filter. -/
theorem listReadings_empty_type (db : List Reading) (dev : String)
    (start end_ : Option Int) :
    listReadings db dev (some "") start end_ =
      listReadings db dev none start end_ := by
  have h : normArg (some "") = none := by decide
  simp [listReadings, h, normArg]

/-! ## Percentile aggregator (class `Percentile` in `app.py`)

`Percentile.finalize` delegates to
`np.nanpercentile(self.arr, self.percentile, interpolation='midpoint')`.
numpy's midpoint method sorts the values ascending into `a[0..n-1]`, sets
`index = p/100 * (n-1)`, returns `a[index]` when `index` is an integer and
`(a[floor(index)] + a[ceil(index)]) / 2` otherwise.  The embedding computes
over `ℚ` and returns `none` for the empty list (where the real aggregate is
called with the class's initial `self.percentile = ""` and `np.nanpercentile`
raises; the SQL-level effect is modelled at the endpoint definitions). -/

/-- Ascending insertion of an integer into a sorted list. -/
def insertAsc (x : Int) : List Int → List Int
  | [] => [x]
  | y :: ys => if x ≤ y then x :: y :: ys else y :: insertAsc x ys

/-- Ascending sort: the `np.sort` step inside `np.nanpercentile`. -/
def sortAsc : List Int → List Int
  | [] => []
  | x :: xs => insertAsc x (sortAsc xs)

/-- `np.nanpercentile(values, p, interpolation='midpoint')` over `ℚ`: for a
non-integer index the bracketing ranks are `⌊index⌋` and `⌈index⌉ = ⌊index⌋ + 1`. -/
def percentileQ (values : List Int) (p : ℚ) : Option ℚ :=
  if values = [] then none
  else
    let a := sortAsc values
    let idx : ℚ := p * ((a.length : ℚ) - 1) / 100
    let lo : Int := ⌊idx⌋
    if idx = (lo : ℚ) then some ((a.getD lo.toNat 0 : Int) : ℚ)
    else some (((a.getD lo.toNat 0 : Int) + ((a.getD (lo + 1).toNat 0 : Int) : ℚ)) / 2)

theorem percentileQ_singleton (v : Int) (p : ℚ) :
    percentileQ [v] p = some (v : ℚ) := by
  have hidx : p * (((sortAsc [v]).length : ℚ) - 1) / 100 = 0 := by
    simp [sortAsc, insertAsc]
  simp [percentileQ, hidx, sortAsc, insertAsc]

/-- C3: the percentile aggregator follows midpoint interpolation: any
singleton list yields its sole element for every `p` in `[0,100]`, and the
spec's fixtures evaluate to `50`, `36` and `87.5`. -/
theorem percentileQ_spec (v : Int) (p : ℚ) (h0 : 0 ≤ p) (h1 : p ≤ 100) :
    percentileQ [v] p = some (v : ℚ) ∧
    percentileQ [22, 50, 100] 50 = some 50 ∧
    percentileQ [22, 50, 100, 75] 25 = some 36 ∧
    percentileQ [22, 50, 100, 75] 75 = some (175 / 2) :=
  ⟨percentileQ_singleton v p,
    by
      rw [percentileQ, if_neg (by decide)]
      norm_num [sortAsc, insertAsc, Int.toNat_ofNat],
    by
      rw [percentileQ, if_neg (by decide)]
      norm_num [sortAsc, insertAsc, Int.toNat_ofNat],
    by
      rw [percentileQ, if_neg (by decide)]
      norm_num [sortAsc, insertAsc, Int.toNat_ofNat]
      norm_num [show Int.toNat 2 = 2 from rfl, show Int.toNat 3 = 3 from rfl]⟩

/-- C3 witness. -/
theorem percentileQ_spec_witness :
    ((0 : ℚ) ≤ 50 ∧ (50 : ℚ) ≤ 100) ∧
    (percentileQ [7] 50 = some 7 ∧
      percentileQ [22, 50, 100] 50 = some 50 ∧
      percentileQ [22, 50, 100, 75] 25 = some 36 ∧
      percentileQ [22, 50, 100, 75] 75 = some (175 / 2)) :=
  ⟨by norm_num, percentileQ_spec 7 50 (by norm_num) (by norm_num)⟩

/-! ## The SQL string builders -/

/-- `metric_query_builder` from `app.py`: starts from `params = [sensor_type]`
and appends `and date_created >= ?` / `and date_created <= ?` (and the
corresponding raw parameter strings) when `start` / `end` are present. -/
def metric_query_builder (sensor_type : String) (query_template : String)
    (start end_ : Option String) : String × List String :=
  let qp0 : String × List String := (query_template, [sensor_type])
  let qp1 : String × List String :=
    match start with
    | some s => (qp0.1 ++ "and date_created >= ?", qp0.2 ++ [s])
    | none => qp0
  match end_ with
  | some e => (qp1.1 ++ "and date_created <= ?", qp1.2 ++ [e])
  | none => qp1

/-- `query_builder`, the closure inside the GET branch of
`request_device_readings`: like `metric_query_builder` but with the sensor
type itself optional (`and type = ?` is appended only when present). -/
def query_builder (sensor_type : Option String) (query_template : String)
    (start end_ : Option String) : String × List String :=
  let qp0 : String × List String :=
    match sensor_type with
    | some t => (query_template ++ "and type = ?", [t])
    | none => (query_template, [])
  let qp1 : String × List String :=
    match start with
    | some s => (qp0.1 ++ "and date_created >= ?", qp0.2 ++ [s])
    | none => qp0
  match end_ with
  | some e => (qp1.1 ++ "and date_created <= ?", qp1.2 ++ [e])
  | none => qp1

/-- C9: neither builder ever interpolates a filter value into the clause
text: two calls that agree on which fields are present produce the identical
clause string whatever the values are, and the values travel only in the
bound-parameter tuple, in the fixed order sensor type, start, end. -/
theorem builders_bind_parameters (tpl ty1 ty2 : String)
    (tyo1 tyo2 s1 s2 e1 e2 : Option String)
    (hty : tyo1.isSome = tyo2.isSome) (hs : s1.isSome = s2.isSome)
    (he : e1.isSome = e2.isSome) :
    (metric_query_builder ty1 tpl s1 e1).1 = (metric_query_builder ty2 tpl s2 e2).1 ∧
    (metric_query_builder ty1 tpl s1 e1).2 = [ty1] ++ s1.toList ++ e1.toList ∧
    (query_builder tyo1 tpl s1 e1).1 = (query_builder tyo2 tpl s2 e2).1 ∧
    (query_builder tyo1 tpl s1 e1).2 = tyo1.toList ++ s1.toList ++ e1.toList := by
  cases tyo1 <;> cases tyo2 <;> cases s1 <;> cases s2 <;> cases e1 <;> cases e2 <;>
    simp_all [metric_query_builder, query_builder]

/-- C9 witness. -/
theorem builders_bind_parameters_witness :
    ((some "x" : Option String).isSome = (some "y" : Option String).isSome ∧
      (some "1" : Option String).isSome = (some "2" : Option String).isSome ∧
      (none : Option String).isSome = (none : Option String).isSome) ∧
    ((metric_query_builder "a" "T " (some "1") none).1
        = (metric_query_builder "b" "T " (some "2") none).1 ∧
      (metric_query_builder "a" "T " (some "1") none).2
        = ["a"] ++ (some "1").toList ++ (none : Option String).toList ∧
      (query_builder (some "x") "T " (some "1") none).1
        = (query_builder (some "y") "T " (some "2") none).1 ∧
      (query_builder (some "x") "T " (some "1") none).2
        = (some "x").toList ++ (some "1").toList ++ (none : Option String).toList) :=
  ⟨⟨rfl, rfl, rfl⟩,
    builders_bind_parameters "T " "a" "b" (some "x") (some "y") (some "1")
      (some "2") none none rfl rfl rfl⟩

/-! ## Aggregate endpoints

Each `GET /devices/<id>/readings/<agg>/` handler requires the `type`
parameter (`400` when missing), filters with `metric_query_builder`'s
clause `device_uuid=? and type=? [and date_created >= ?][and date_created <= ?]`,
and runs one SQL aggregate.  An aggregate query without `group by` always
yields exactly one row, so the handlers' `row is None` branches are
unreachable there; the observable empty-set results come from SQL `NULL`
(JSON `null`).  `mode` is the exception: its `group by value` query yields
no row at all on an empty set, and its handler then answers the literal
string `"null"`.  For `median`/`quartiles` on an empty set the `Percentile`
aggregate's `finalize` runs with `self.arr = []` and the initial
`self.percentile = ""`, so `np.nanpercentile` raises, sqlite3 reports an
`OperationalError`, and the handler's `except Error` branch answers
`('Error getting max value', 500)`. -/

/-- A JSON scalar in a response body. -/
inductive JVal where
  | num (q : ℚ)
  | str (s : String)
  | null
deriving DecidableEq, Repr

/-- A Flask response: a JSON object (field list) with a status code, or a
plain error string with a status code. -/
inductive ApiResponse where
  | ok (body : List (String × JVal)) (code : Nat)
  | err (msg : String) (code : Nat)
deriving DecidableEq, Repr

/-- Rows matching `metric_query_builder`'s clause (`type` mandatory). -/
def metricFiltered (db : List Reading) (device_uuid ty : String)
    (start end_ : Option Int) : List Reading :=
  db.filter (matchesFilter device_uuid (some ty) start end_)

/-- SQL `max(value)`: `NULL` on an empty (or all-`NULL`) column. -/
def maxZ : List Int → Option Int
  | [] => none
  | x :: xs =>
    match maxZ xs with
    | none => some x
    | some m => some (max x m)

/-- SQL `min(value)`. -/
def minZ : List Int → Option Int
  | [] => none
  | x :: xs =>
    match minZ xs with
    | none => some x
    | some m => some (min x m)

/-- SQLite `round(x, 2)`: rounds half away from zero (modelled on `ℚ`). -/
def round2 (q : ℚ) : ℚ :=
  if 0 ≤ q then (⌊q * 100 + 1 / 2⌋ : ℚ) / 100
  else -((⌊-q * 100 + 1 / 2⌋ : ℚ) / 100)

/-- SQL `round(avg(value), 2)`: `NULL` on an empty column. -/
def meanQ (l : List Int) : Option ℚ :=
  match l with
  | [] => none
  | _ => some (round2 ((l.map (fun v => (v : ℚ))).sum / l.length))

/-- `count(*)` of the rows of `l` equal to `a`. -/
def countVal {α : Type} [DecidableEq α] (l : List α) (a : α) : Nat :=
  (l.filter (fun x => x == a)).length

/-- The first row of `select value from ... group by value order by count(*) desc`:
some element of `l` with maximal occurrence count, `none` when `l` is empty.
SQLite leaves the order of equal-count groups unspecified; the embedding
picks one maximising element, and the claims below only use it where every
choice coincides (empty input, or a strict maximum). -/
def modeResult {α : Type} [DecidableEq α] (l : List α) : Option α :=
  l.argmax (countVal l)

theorem modeResult_strict {α : Type} [DecidableEq α] (l : List α) (v : α)
    (hv : v ∈ l) (hstrict : ∀ w ∈ l, w ≠ v → countVal l w < countVal l v) :
    modeResult l = some v := by
  rcases hm : l.argmax (countVal l) with _ | m
  · rw [List.argmax_eq_none] at hm
    subst hm
    cases hv
  · have hmem : m ∈ l := List.argmax_mem hm
    have hle : countVal l v ≤ countVal l m := List.le_of_mem_argmax hv hm
    by_cases hvm : m = v
    · subst hvm
      simpa [modeResult] using hm
    · have := hstrict m hmem hvm
      omega

/-- `GET /devices/<id>/readings/max/`. -/
def request_device_readings_max (db : List Reading) (device_uuid : String)
    (typeArg : Option String) (start end_ : Option Int) : ApiResponse :=
  match typeArg with
  | none => .err "sensor type is required" 400
  | some ty =>
    let vs := (metricFiltered db device_uuid ty start end_).filterMap Reading.value
    .ok [("value", match maxZ vs with | none => .null | some m => .num (m : ℚ))] 200

/-- `GET /devices/<id>/readings/min/`. -/
def request_device_readings_min (db : List Reading) (device_uuid : String)
    (typeArg : Option String) (start end_ : Option Int) : ApiResponse :=
  match typeArg with
  | none => .err "sensor type is required" 400
  | some ty =>
    let vs := (metricFiltered db device_uuid ty start end_).filterMap Reading.value
    .ok [("value", match minZ vs with | none => .null | some m => .num (m : ℚ))] 200

/-- `GET /devices/<id>/readings/mean/`. -/
def request_device_readings_mean (db : List Reading) (device_uuid : String)
    (typeArg : Option String) (start end_ : Option Int) : ApiResponse :=
  match typeArg with
  | none => .err "sensor type is required" 400
  | some ty =>
    let vs := (metricFiltered db device_uuid ty start end_).filterMap Reading.value
    .ok [("value", match meanQ vs with | none => .null | some m => .num m)] 200

/-- `GET /devices/<id>/readings/mode/`: the grouped query keeps the `value`
column as is, so a `NULL` group is possible; `fetchone()` returns no row at
all on an empty set and the handler then answers the string `"null"`. -/
def request_device_readings_mode (db : List Reading) (device_uuid : String)
    (typeArg : Option String) (start end_ : Option Int) : ApiResponse :=
  match typeArg with
  | none => .err "sensor type is required" 400
  | some ty =>
    let vs := (metricFiltered db device_uuid ty start end_).map Reading.value
    match modeResult vs with
    | none => .ok [("value", .str "null")] 200
    | some none => .ok [("value", .null)] 200
    | some (some m) => .ok [("value", .num (m : ℚ))] 200

/-- `GET /devices/<id>/readings/median/`: `percentile(value, 50)`; on an
empty set the aggregate's `finalize` raises and the handler answers 500. -/
def request_device_readings_median (db : List Reading) (device_uuid : String)
    (typeArg : Option String) (start end_ : Option Int) : ApiResponse :=
  match typeArg with
  | none => .err "sensor type is required" 400
  | some ty =>
    let vs := (metricFiltered db device_uuid ty start end_).filterMap Reading.value
    match percentileQ vs 50 with
    | none => .err "Error getting max value" 500
    | some m => .ok [("value", .num m)] 200

/-- `GET /devices/<id>/readings/quartiles/`: `percentile(value, 25)` and
`percentile(value, 75)`; on an empty set `finalize` raises and the handler
answers 500. -/
def request_device_readings_quartiles (db : List Reading) (device_uuid : String)
    (typeArg : Option String) (start end_ : Option Int) : ApiResponse :=
  match typeArg with
  | none => .err "sensor type is required" 400
  | some ty =>
    let vs := (metricFiltered db device_uuid ty start end_).filterMap Reading.value
    match percentileQ vs 25, percentileQ vs 75 with
    | some q1, some q3 =>
        .ok [("quartile_1", .num q1), ("quartile_3", .num q3)] 200
    | _, _ => .err "Error getting max value" 500

/-- C6 counterexample: on an empty filtered set the aggregate kinds do not
share one success-status null sentinel: `median` fails with a 500 error, and
`mode`'s body (the string `"null"`) differs from `max`'s (JSON `null`). -/
theorem aggregates_empty_counterexample :
    request_device_readings_median [] "d" (some "temperature") none none =
      .err "Error getting max value" 500 ∧
    request_device_readings_mode [] "d" (some "temperature") none none =
      .ok [("value", .str "null")] 200 ∧
    request_device_readings_max [] "d" (some "temperature") none none =
      .ok [("value", .null)] 200 ∧
    request_device_readings_mode [] "d" (some "temperature") none none ≠
      request_device_readings_max [] "d" (some "temperature") none none := by
  refine ⟨?_, ?_, ?_, ?_⟩ <;> decide

/-- C6 amended: on an empty filtered set, `max`, `min` and `mean` answer
JSON `null` with status 200, `mode` answers the string `"null"` with status
200, and `median` and `quartiles` answer a 500 error — successes for four
kinds but with two different null encodings, and errors for the two
percentile-based kinds. -/
theorem aggregates_empty_result (db : List Reading) (dev ty : String)
    (start end_ : Option Int) (h : metricFiltered db dev ty start end_ = []) :
    request_device_readings_max db dev (some ty) start end_ =
      .ok [("value", .null)] 200 ∧
    request_device_readings_min db dev (some ty) start end_ =
      .ok [("value", .null)] 200 ∧
    request_device_readings_mean db dev (some ty) start end_ =
      .ok [("value", .null)] 200 ∧
    request_device_readings_mode db dev (some ty) start end_ =
      .ok [("value", .str "null")] 200 ∧
    request_device_readings_median db dev (some ty) start end_ =
      .err "Error getting max value" 500 ∧
    request_device_readings_quartiles db dev (some ty) start end_ =
      .err "Error getting max value" 500 := by
  refine ⟨?_, ?_, ?_, ?_, ?_, ?_⟩ <;>
    simp [request_device_readings_max, request_device_readings_min,
      request_device_readings_mean, request_device_readings_mode,
      request_device_readings_median, request_device_readings_quartiles,
      h, maxZ, minZ, meanQ, modeResult, percentileQ]

/-- C6 amended witness. -/
theorem aggregates_empty_result_witness :
    metricFiltered [] "d" "temperature" none none = [] ∧
    (request_device_readings_max [] "d" (some "temperature") none none =
        .ok [("value", .null)] 200 ∧
      request_device_readings_min [] "d" (some "temperature") none none =
        .ok [("value", .null)] 200 ∧
      request_device_readings_mean [] "d" (some "temperature") none none =
        .ok [("value", .null)] 200 ∧
      request_device_readings_mode [] "d" (some "temperature") none none =
        .ok [("value", .str "null")] 200 ∧
      request_device_readings_median [] "d" (some "temperature") none none =
        .err "Error getting max value" 500 ∧
      request_device_readings_quartiles [] "d" (some "temperature") none none =
        .err "Error getting max value" 500) :=
  ⟨rfl, aggregates_empty_result [] "d" "temperature" none none rfl⟩

/-- The mode test fixture: the suite's five `setUp` rows plus the extra
`(test_device, temperature, 22)` row inserted by `test_device_readings_mode`. -/
def modeFixtureDb : List Reading :=
  [⟨"test_device", some "temperature", some 22, 0⟩,
   ⟨"test_device", some "temperature", some 50, 50⟩,
   ⟨"test_device", some "humidity", some 50, 50⟩,
   ⟨"test_device", some "temperature", some 100, 100⟩,
   ⟨"other_uuid", some "temperature", some 22, 100⟩,
   ⟨"test_device", some "temperature", some 22, -20⟩]

/-- C7: when one value occurs strictly more often than every other value in
the filtered column, the `mode` endpoint returns it; on the test fixture
(temperature values 22, 50, 100, 22) it returns 22. -/
theorem mode_strict_max (db : List Reading) (dev ty : String)
    (start end_ : Option Int) (v : Int)
    (hv : some v ∈ (metricFiltered db dev ty start end_).map Reading.value)
    (hstrict : ∀ w ∈ (metricFiltered db dev ty start end_).map Reading.value,
      w ≠ some v →
        countVal ((metricFiltered db dev ty start end_).map Reading.value) w <
        countVal ((metricFiltered db dev ty start end_).map Reading.value) (some v)) :
    request_device_readings_mode db dev (some ty) start end_ =
      .ok [("value", .num (v : ℚ))] 200 ∧
    request_device_readings_mode modeFixtureDb "test_device" (some "temperature")
      none none = .ok [("value", .num 22)] 200 := by
  have hmode := modeResult_strict _ _ hv hstrict
  exact ⟨by simp [request_device_readings_mode, hmode], by decide⟩

/-- C7 witness. -/
theorem mode_strict_max_witness :
    (some (22 : Int) ∈
        (metricFiltered modeFixtureDb "test_device" "temperature" none none).map
          Reading.value ∧
      (∀ w ∈ (metricFiltered modeFixtureDb "test_device" "temperature" none none).map
          Reading.value, w ≠ some 22 →
        countVal ((metricFiltered modeFixtureDb "test_device" "temperature"
          none none).map Reading.value) w <
        countVal ((metricFiltered modeFixtureDb "test_device" "temperature"
          none none).map Reading.value) (some 22))) ∧
    (request_device_readings_mode modeFixtureDb "test_device" (some "temperature")
        none none = .ok [("value", .num ((22 : Int) : ℚ))] 200 ∧
      request_device_readings_mode modeFixtureDb "test_device" (some "temperature")
        none none = .ok [("value", .num 22)] 200) :=
  ⟨⟨by decide, by decide⟩,
    mode_strict_max modeFixtureDb "test_device" "temperature" none none 22
      (by decide) (by decide)⟩

/-! ## Summary reporter (`request_device_summary`)

`select device_uuid, count(*), max(value), round(avg(value),2),
percentile(value,25), percentile(value,75), percentile(value,50), type
from readings group by device_uuid, type order by count(device_uuid) desc`.
The `group by` produces one row per distinct `(device_uuid, type)` pair of
the stored readings; `order by count(...) desc` sorts the rows by group size
descending (ties in an order SQLite leaves unspecified; the embedding fixes
a deterministic insertion sort). -/

/-- One row of the summary result, in the column order of the query. -/
structure SummaryRow where
  device_uuid : String
  number_of_readings : Nat
  max_reading_value : Option Int
  mean_reading_value : Option ℚ
  quartile_1_value : Option ℚ
  quartile_3_value : Option ℚ
  median_value : Option ℚ
  device_type : Option String
deriving DecidableEq, Repr

/-- The distinct `(device_uuid, type)` pairs of the table: the groups of
`group by device_uuid, type`. -/
def summaryKeys (db : List Reading) : List (String × Option String) :=
  (db.map (fun r => (r.device_uuid, r.type))).dedup

/-- The aggregate row of one group. -/
def summaryRow (db : List Reading) (k : String × Option String) : SummaryRow :=
  let group := db.filter (fun r => r.device_uuid == k.1 && r.type == k.2)
  let vs := group.filterMap Reading.value
  { device_uuid := k.1
    number_of_readings := group.length
    max_reading_value := maxZ vs
    mean_reading_value := meanQ vs
    quartile_1_value := percentileQ vs 25
    quartile_3_value := percentileQ vs 75
    median_value := percentileQ vs 50
    device_type := k.2 }

/-- `GET /devices/summary/`: one row per group, sorted by count descending. -/
def request_device_summary (db : List Reading) : List SummaryRow :=
  List.insertionSort (fun a b => b.number_of_readings ≤ a.number_of_readings)
    ((summaryKeys db).map (summaryRow db))

/-- The `(device_uuid, type)` key a summary row reports. -/
def summaryKey (row : SummaryRow) : String × Option String :=
  (row.device_uuid, row.device_type)

theorem summaryKey_summaryRow (db : List Reading) (k : String × Option String) :
    summaryKey (summaryRow db k) = k := rfl

theorem summaryKey_map (db : List Reading) :
    ((summaryKeys db).map (summaryRow db)).map summaryKey = summaryKeys db := by
  rw [List.map_map]
  simp [Function.comp_def, summaryKey_summaryRow]

/-- The spec's summary scenario: device `A` holds temperature readings
22, 50, 100 and device `B` the single temperature reading 22, at distinct
timestamps. -/
def summaryFixtureDb : List Reading :=
  [⟨"A", some "temperature", some 22, 100⟩,
   ⟨"A", some "temperature", some 50, 150⟩,
   ⟨"A", some "temperature", some 100, 200⟩,
   ⟨"B", some "temperature", some 22, 250⟩]

/-- Device `B`'s expected summary row. -/
def summaryRowB : SummaryRow :=
  { device_uuid := "B"
    number_of_readings := 1
    max_reading_value := some 22
    mean_reading_value := some 22
    quartile_1_value := some 22
    quartile_3_value := some 22
    median_value := some 22
    device_type := some "temperature" }

theorem summaryRow_fixtureB :
    summaryRow summaryFixtureDb ("B", some "temperature") = summaryRowB := by
  have hgroup : summaryFixtureDb.filter
      (fun r => r.device_uuid == "B" && r.type == some "temperature") =
      [⟨"B", some "temperature", some 22, 250⟩] := by decide
  rw [summaryRow]
  simp only [hgroup]
  have hmean : meanQ [22] = some 22 := by
    norm_num [meanQ, round2]
  have hq : ∀ p : ℚ, percentileQ [22] p = some 22 := by
    intro p
    have := percentileQ_singleton 22 p
    norm_num at this
    simpa using this
  simp [summaryRowB, hmean, hq, maxZ, List.filterMap]

/-- C8: the summary endpoint emits exactly one row per distinct
`(device_uuid, sensor_type)` group of the stored readings (no duplicate
keys, and a key appears exactly when some stored reading carries it), sorts
the rows descending by reading count, and on the spec's fixture device `B`'s
row is `count=1, max=22, mean=22, q1=22, q3=22, median=22`.  The hypothesis
restricts to tables satisfying the data model (every stored `value`
non-`NULL`); a `NULL` `value` can only enter via a POST that omits `value`. -/
theorem summary_spec (db : List Reading)
    (hv : ∀ r ∈ db, (Reading.value r).isSome = true) :
    ((request_device_summary db).map summaryKey).Nodup ∧
    (∀ k, k ∈ (request_device_summary db).map summaryKey ↔
      k ∈ db.map (fun r => (r.device_uuid, r.type))) ∧
    (request_device_summary db).Pairwise
      (fun a b => b.number_of_readings ≤ a.number_of_readings) ∧
    summaryRowB ∈ request_device_summary summaryFixtureDb := by
  have hperm : List.Perm (request_device_summary db) ((summaryKeys db).map (summaryRow db)) :=
    List.perm_insertionSort _ _
  have hkeyperm := hperm.map summaryKey
  refine ⟨?_, ?_, ?_, ?_⟩
  · rw [hkeyperm.nodup_iff, summaryKey_map]
    exact List.nodup_dedup _
  · intro k
    rw [hkeyperm.mem_iff, summaryKey_map, summaryKeys, List.mem_dedup]
  · haveI : IsTotal SummaryRow
        (fun a b => b.number_of_readings ≤ a.number_of_readings) :=
      ⟨fun a b => Nat.le_total b.number_of_readings a.number_of_readings⟩
    haveI : IsTrans SummaryRow
        (fun a b => b.number_of_readings ≤ a.number_of_readings) :=
      ⟨fun a b c hab hbc => le_trans hbc hab⟩
    exact List.sorted_insertionSort _ _
  · have hfixperm : List.Perm (request_device_summary summaryFixtureDb)
        ((summaryKeys summaryFixtureDb).map (summaryRow summaryFixtureDb)) :=
      List.perm_insertionSort _ _
    refine hfixperm.mem_iff.mpr (List.mem_map.mpr ⟨("B", some "temperature"), ?_, summaryRow_fixtureB⟩)
    decide

/-- C8 witness. -/
theorem summary_spec_witness :
    (∀ r ∈ summaryFixtureDb, (Reading.value r).isSome = true) ∧
    (((request_device_summary summaryFixtureDb).map summaryKey).Nodup ∧
      (∀ k, k ∈ (request_device_summary summaryFixtureDb).map summaryKey ↔
        k ∈ summaryFixtureDb.map (fun r => (r.device_uuid, r.type))) ∧
      (request_device_summary summaryFixtureDb).Pairwise
        (fun a b => b.number_of_readings ≤ a.number_of_readings) ∧
      summaryRowB ∈ request_device_summary summaryFixtureDb) :=
  ⟨by decide, summary_spec summaryFixtureDb (by decide)⟩

end SensorApi
